import Mathlib

/-!
Verification of the socratex conversation session engine.

Shallow embedding of:
* `src/lib/session-storage.ts` (the unnamed part_000): localStorage-backed
  session store, title derivation, date bucketing;
* `src/app/page.tsx` (`Home`): the active conversation controller and the
  history-mutation handlers.

Timestamps are modelled as natural numbers (milliseconds since epoch).  The
JSON serialization boundary of localStorage degrades `Date` values to strings;
we model the stored form (`StoredSession`) with string timestamps produced by
a decimal rendering (`dateToString`, standing in for the ISO rendering used by
`JSON.stringify`) and recovered by `dateFromString` (standing in for
`new Date(string)`).
-/

namespace Socratex

/-- Message roles of the AI SDK (`"user" | "assistant" | "system"`). -/
inductive Role
  | user
  | assistant
  | system
  deriving DecidableEq

/-- Model of JavaScript `String.prototype.trim`: drop leading and trailing
whitespace (defined over the character list so the kernel can evaluate it). -/
def jsTrim (s : String) : String :=
  String.mk (((s.data.dropWhile Char.isWhitespace).reverse.dropWhile
    Char.isWhitespace).reverse)

/-- Model of JavaScript `String.prototype.length` (character count). -/
def jsLength (s : String) : Nat := s.data.length

/-- Model of JavaScript `substring(0, n)` (first `n` characters). -/
def jsTake (s : String) (n : Nat) : String := String.mk (s.data.take n)

/-- A message content part: a text part or a file/image reference. -/
inductive Part
  | text (text : String)
  | file (mediaType : String) (url : String)
  deriving DecidableEq

/-- `p.type === "text"`. -/
def isTextPart : Part → Bool
  | .text _ => true
  | .file _ _ => false

/-- The text of a text part (`""` for file parts). -/
def textOfPart : Part → String
  | .text t => t
  | .file _ _ => ""

/-- A chat message (`Message` of `@ai-sdk/react`). -/
structure Message where
  id : String
  role : Role
  parts : List Part
  deriving DecidableEq

/-- `ChatSession` from `src/lib/types.ts` (timestamps as ms since epoch). -/
structure ChatSession where
  id : String
  title : String
  messages : List Message
  createdAt : Nat
  updatedAt : Nat
  deriving DecidableEq

/-- `SessionGroup` from `src/lib/types.ts`. -/
structure SessionGroup where
  label : String
  sessions : List ChatSession
  deriving DecidableEq

/-! ### Decimal rendering of timestamps (the serialization boundary) -/

/-- `Nat.digitChar` restricted to decimal digits. -/
def digitChar : Nat → Char
  | 0 => '0'
  | 1 => '1'
  | 2 => '2'
  | 3 => '3'
  | 4 => '4'
  | 5 => '5'
  | 6 => '6'
  | 7 => '7'
  | 8 => '8'
  | 9 => '9'
  | _ => '*'

/-- Numeric value of a decimal digit character. -/
def charToDigit (c : Char) : Nat := c.toNat - 48

/-- Fuel-driven decimal rendering (structural recursion so that the kernel
can evaluate it). -/
def toDecimalAux : Nat → Nat → List Char
  | 0, _ => []
  | fuel + 1, n =>
    if n < 10 then [digitChar n]
    else toDecimalAux fuel (n / 10) ++ [digitChar (n % 10)]

/-- Decimal digit list of `n`. -/
def toDecimal (n : Nat) : List Char := toDecimalAux (n + 1) n

/-- Value of a decimal digit list. -/
def fromDecimal (cs : List Char) : Nat :=
  cs.foldl (fun a c => a * 10 + charToDigit c) 0

/-- Serialize a timestamp to its string form (model of the ISO rendering
applied by `JSON.stringify` to a `Date`). -/
def dateToString (t : Nat) : String := String.mk (toDecimal t)

/-- Recover a timestamp from its string form (model of `new Date(s)`). -/
def dateFromString (s : String) : Nat := fromDecimal s.data

/-! ### The backing store -/

/-- A session as it sits in localStorage after the JSON round trip: the
timestamps have been degraded to strings. -/
structure StoredSession where
  id : String
  title : String
  messages : List Message
  createdAt : String
  updatedAt : String
  deriving DecidableEq

/-- The value stored under the `socratex-sessions` key: absent, present but
unparseable (`JSON.parse` throws), or a parsed session list. -/
inductive StoredValue
  | absent
  | corrupt
  | val (sessions : List StoredSession)
  deriving DecidableEq

/-- The browser environment seen by `session-storage.ts`: whether `window`
exists, whether every localStorage access throws (quota exceeded / disabled
storage), and the two stored values. -/
structure Env where
  hasWindow : Bool
  storageFails : Bool
  sessionsValue : StoredValue
  currentIdValue : Option String
  deriving DecidableEq

/-- Serialization applied by `JSON.stringify` (dates degrade to strings). -/
def sessionToStored (s : ChatSession) : StoredSession :=
  ⟨s.id, s.title, s.messages, dateToString s.createdAt, dateToString s.updatedAt⟩

/-- The reconstruction performed inside `getAllSessions`:
`{...s, createdAt: new Date(s.createdAt), updatedAt: new Date(s.updatedAt)}`. -/
def storedToSession (s : StoredSession) : ChatSession :=
  ⟨s.id, s.title, s.messages, dateFromString s.createdAt, dateFromString s.updatedAt⟩

/-- `getAllSessions` of `session-storage.ts`.  Returns `[]` when `window` is
absent, when any storage access throws (the `catch` branch), when nothing is
stored, or when the stored data does not parse (the `catch` branch again). -/
def getAllSessions (e : Env) : List ChatSession :=
  if !e.hasWindow then []
  else if e.storageFails then []
  else
    match e.sessionsValue with
    | .absent => []
    | .corrupt => []
    | .val stored => stored.map storedToSession

/-- `sessions.findIndex(...)` (JS semantics: first matching index). -/
def findIndex (p : ChatSession → Bool) : List ChatSession → Option Nat
  | [] => none
  | s :: rest => if p s then some 0 else (findIndex p rest).map (· + 1)

/-- The in-memory update performed by `saveSession`: replace the record at the
first index whose `id` matches, else `unshift` the new record. -/
def upsertList (sessions : List ChatSession) (session : ChatSession) : List ChatSession :=
  match findIndex (fun s => s.id = session.id) sessions with
  | some i => sessions.set i session
  | none => session :: sessions

/-- `saveSession` of `session-storage.ts`.  Reads all sessions (that inner
read catches its own failures and yields `[]`), upserts, then writes; if the
write throws, the `catch` leaves the store unchanged. -/
def saveSession (e : Env) (session : ChatSession) : Env :=
  if !e.hasWindow then e
  else
    let sessions := getAllSessions e
    let newList := upsertList sessions session
    if e.storageFails then e
    else { e with sessionsValue := .val (newList.map sessionToStored) }

/-- `deleteSession` of `session-storage.ts`. -/
def deleteSession (e : Env) (sessionId : String) : Env :=
  if !e.hasWindow then e
  else
    let sessions := getAllSessions e
    let filtered := sessions.filter (fun s => !(s.id = sessionId))
    if e.storageFails then e
    else { e with sessionsValue := .val (filtered.map sessionToStored) }

/-- `updateSessionTitle` of `session-storage.ts` (`now` models the
`new Date()` taken for `updatedAt`). -/
def updateSessionTitle (e : Env) (sessionId title : String) (now : Nat) : Env :=
  if !e.hasWindow then e
  else
    let sessions := getAllSessions e
    match sessions.find? (fun s => s.id = sessionId) with
    | some s => saveSession e { s with title := title, updatedAt := now }
    | none => e

/-- `getCurrentSessionId` of `session-storage.ts`. -/
def getCurrentSessionId (e : Env) : Option String :=
  if !e.hasWindow then none
  else if e.storageFails then none
  else e.currentIdValue

/-- `setCurrentSessionId` of `session-storage.ts`. -/
def setCurrentSessionId (e : Env) (sessionId : String) : Env :=
  if !e.hasWindow then e
  else if e.storageFails then e
  else { e with currentIdValue := some sessionId }

/-- `generateSessionTitle` of `session-storage.ts`.  Note the falsy check
`if (!textPart || !textPart.text)`: an empty-string text part also yields
`"New Chat"`, and it is checked before trimming. -/
def generateSessionTitle (messages : List Message) : String :=
  match messages.find? (fun m => m.role = Role.user) with
  | none => "New Chat"
  | some firstUserMessage =>
    match firstUserMessage.parts.find? isTextPart with
    | none => "New Chat"
    | some textPart =>
      if textOfPart textPart = "" then "New Chat"
      else
        let text := jsTrim (textOfPart textPart)
        if jsLength text > 50 then (jsTake text 50) ++ "..." else text

/-! ### Date bucketing -/

/-- One calendar day in milliseconds (the `setDate(getDate() - k)` steps). -/
def dayMs : Int := 86400000

/-- `new Date(now.getFullYear(), now.getMonth(), now.getDate())`: the start of
the calendar day containing `now`, modelled as flooring to a day boundary. -/
def startOfDay (now : Int) : Int := (now.fdiv dayMs) * dayMs

/-- Index of the bucket the `if/else if` chain of `groupSessionsByDate`
pushes a session with this `updatedAt` into. -/
def sessionBucket (today sessionDate : Int) : Nat :=
  if today ≤ sessionDate then 0
  else if today - dayMs ≤ sessionDate then 1
  else if today - 7 * dayMs ≤ sessionDate then 2
  else if today - 30 * dayMs ≤ sessionDate then 3
  else 4

/-- `groupSessionsByDate` of `session-storage.ts`.  The source reads the clock
itself (`const now = new Date()`); here `now` is a parameter.  Pushing each
session into the first matching branch of the `if/else if` chain yields, per
bucket, the input filtered by that branch; empty groups are filtered out. -/
def groupSessionsByDate (sessions : List ChatSession) (now : Int) : List SessionGroup :=
  let today := startOfDay now
  let groups : List SessionGroup :=
    [ ⟨"Today", sessions.filter (fun s => sessionBucket today s.updatedAt = 0)⟩,
      ⟨"Yesterday", sessions.filter (fun s => sessionBucket today s.updatedAt = 1)⟩,
      ⟨"Last 7 Days", sessions.filter (fun s => sessionBucket today s.updatedAt = 2)⟩,
      ⟨"Last 30 Days", sessions.filter (fun s => sessionBucket today s.updatedAt = 3)⟩,
      ⟨"Older", sessions.filter (fun s => sessionBucket today s.updatedAt = 4)⟩ ]
  groups.filter (fun g => g.sessions.length > 0)

/-- Modelled from the spec (section 4.2): the half-open interval each bucket
label covers, used to compare the code's bucketing against the specified
intervals. -/
def inBucketInterval (today : Int) (label : String) (t : Int) : Prop :=
  if label = "Today" then today ≤ t
  else if label = "Yesterday" then today - dayMs ≤ t ∧ t < today
  else if label = "Last 7 Days" then today - 7 * dayMs ≤ t ∧ t < today - dayMs
  else if label = "Last 30 Days" then today - 30 * dayMs ≤ t ∧ t < today - 7 * dayMs
  else if label = "Older" then t < today - 30 * dayMs
  else False

instance (today : Int) (label : String) (t : Int) :
    Decidable (inBucketInterval today label t) := by
  unfold inBucketInterval
  infer_instance

/-! ### The active conversation controller (`Home` in `src/app/page.tsx`) -/

/-- Stream status of the `useChat` hook (`"ready"` is the idle state of the
spec, `"submitted"`/`"streaming"` are the in-flight states). -/
inductive ChatStatus
  | ready
  | submitted
  | streaming
  | error
  deriving DecidableEq

/-- The session-related state of the `Home` component.
`activeStreamingSessionId` is the spec's `boundSessionId`; `streamMessages`
is the live message list of the `useChat` hook; `displayMessages` is the
displayed projection. -/
structure HomeState where
  currentSessionId : Option String
  activeStreamingSessionId : Option String
  streamMessages : List Message
  displayMessages : List Message
  status : ChatStatus
  input : String
  sessions : List ChatSession
  sidebarOpen : Bool
  editingMessageId : Option String
  editingText : String
  env : Env
  deriving DecidableEq

/-- `isLoading = status === "streaming" || status === "submitted"`. -/
def isLoading (st : HomeState) : Bool :=
  match st.status with
  | .streaming => true
  | .submitted => true
  | _ => false

/-- The synchronous effect of `chatHelpers.sendMessage({parts})`: the user
message (with a transport-minted fresh id) is appended to the live list and
the stream enters the `submitted` state. -/
def sendMessage (st : HomeState) (parts : List Part) (freshId : String) : HomeState :=
  { st with
    streamMessages := st.streamMessages ++ [⟨freshId, Role.user, parts⟩],
    status := ChatStatus.submitted }

/-- The transport completing a stream: the assistant reply is the last
message of the live list and the status returns to `ready`. -/
def streamFinish (st : HomeState) (assistantId : String) (assistantParts : List Part) :
    HomeState :=
  { st with
    streamMessages := st.streamMessages ++ [⟨assistantId, Role.assistant, assistantParts⟩],
    status := ChatStatus.ready }

/-- The save-streaming-session effect of `Home` (runs whenever the live list
changes): builds a fresh `ChatSession` record — note `createdAt: new Date()`
— saves it, reloads the session list, and refreshes the display when the
bound session is the one shown.  `now` models `new Date()`. -/
def saveStreamingSessionEffect (st : HomeState) (now : Nat) : HomeState :=
  if st.streamMessages.length = 0 then st
  else
    match st.activeStreamingSessionId with
    | none => st
    | some sid =>
      let session : ChatSession :=
        { id := sid,
          title := generateSessionTitle st.streamMessages,
          messages := st.streamMessages,
          createdAt := now,
          updatedAt := now }
      let env := saveSession st.env session
      let st := { st with env := env, sessions := getAllSessions env }
      if st.currentSessionId = some sid then
        { st with displayMessages := st.streamMessages }
      else st

/-- `handleNewSession`: clears all conversation state. -/
def handleNewSession (st : HomeState) : HomeState :=
  { st with
    input := "",
    displayMessages := [],
    streamMessages := [],
    currentSessionId := none,
    env := setCurrentSessionId st.env "",
    activeStreamingSessionId := none,
    sidebarOpen := false }

/-- `handleDeleteSession`: removes the record from the store, reloads the
list, and resets to a new-session state only when the deleted id is the
currently displayed one.  The stream status is never touched. -/
def handleDeleteSession (st : HomeState) (sessionId : String) : HomeState :=
  let env := deleteSession st.env sessionId
  let st := { st with env := env, sessions := getAllSessions env }
  if st.currentSessionId = some sessionId then handleNewSession st else st

/-- Index and value of the last user-role message of a list
(`messages.filter(m => m.role === "user").pop()` plus `lastIndexOf`). -/
def lastUser : List Message → Option (Nat × Message)
  | [] => none
  | m :: rest =>
    match lastUser rest with
    | some (i, u) => some (i + 1, u)
    | none => if m.role = Role.user then some (0, m) else none

/-- `handleRegenerateResponse(messageIndex)`: slice the displayed list up to
`messageIndex`, find the last user message of the slice (no-op if there is
none), truncate the live list to everything before that user message, bind
the current session, and re-send the user message's parts. -/
def handleRegenerateResponse (st : HomeState) (messageIndex : Nat) (freshId : String) :
    HomeState :=
  let messagesUpToUser := st.displayMessages.take messageIndex
  match lastUser messagesUpToUser with
  | none => st
  | some (userMessageIndex, lastUserMessage) =>
    let messagesBeforeUser := messagesUpToUser.take userMessageIndex
    let st := { st with streamMessages := messagesBeforeUser }
    let st :=
      match st.currentSessionId with
      | some sid => { st with activeStreamingSessionId := some sid }
      | none => st
    sendMessage st lastUserMessage.parts freshId

/-- `handleSaveEdit(messageIndex)`: no-op when the edit text trims to empty;
otherwise truncate the live list to everything before `messageIndex`, clear
the editing state, bind the current session, and send a user message whose
single text part is the trimmed edit text.  (The source spreads the edited
message into `updatedMessage`, but only `updatedMessage.parts` — the fresh
single text part — is ever used, so an out-of-range index is not guarded.) -/
def handleSaveEdit (st : HomeState) (messageIndex : Nat) (freshId : String) : HomeState :=
  if jsTrim st.editingText = "" then st
  else
    let messagesBeforeEdit := st.displayMessages.take messageIndex
    let updatedParts : List Part := [Part.text (jsTrim st.editingText)]
    let st := { st with
      streamMessages := messagesBeforeEdit,
      editingMessageId := none,
      editingText := "" }
    let st :=
      match st.currentSessionId with
      | some sid => { st with activeStreamingSessionId := some sid }
      | none => st
    sendMessage st updatedParts freshId

/-- `handleSubmit`: ignore empty input or an in-flight stream; otherwise mint
a session id if none is current, bind it, and send the trimmed input as a
single text part.  `freshSessionId` models the minted id and `freshMsgId` the
transport-minted message id. -/
def handleSubmit (st : HomeState) (freshSessionId freshMsgId : String) : HomeState :=
  if jsTrim st.input = "" ∨ isLoading st = true then st
  else
    let messageContent := jsTrim st.input
    let st := { st with input := "" }
    let sessionId := st.currentSessionId.getD freshSessionId
    let st :=
      if st.currentSessionId.isNone then
        { st with
          currentSessionId := some sessionId,
          env := setCurrentSessionId st.env sessionId }
      else st
    let st := { st with activeStreamingSessionId := some sessionId }
    sendMessage st [Part.text messageContent] freshMsgId

/-! ## Helper lemmas -/

theorem charToDigit_digitChar : ∀ d, d < 10 → charToDigit (digitChar d) = d := by
  decide

theorem fromDecimal_append (cs : List Char) (c : Char) :
    fromDecimal (cs ++ [c]) = 10 * fromDecimal cs + charToDigit c := by
  unfold fromDecimal
  rw [List.foldl_append]
  simp [Nat.mul_comm]

theorem fromDecimal_toDecimalAux :
    ∀ fuel n, n < fuel → fromDecimal (toDecimalAux fuel n) = n := by
  intro fuel
  induction fuel with
  | zero => intro n h; omega
  | succ fuel ih =>
    intro n h
    unfold toDecimalAux
    by_cases h10 : n < 10
    · simp only [h10, if_true, fromDecimal, List.foldl]
      simpa using charToDigit_digitChar n h10
    · have hdiv : n / 10 < n := Nat.div_lt_self (by omega) (by omega)
      simp only [h10, if_false]
      rw [fromDecimal_append, ih (n / 10) (by omega),
        charToDigit_digitChar (n % 10) (Nat.mod_lt _ (by omega))]
      omega

theorem dateFromString_dateToString (t : Nat) : dateFromString (dateToString t) = t :=
  fromDecimal_toDecimalAux (t + 1) t (Nat.lt_succ_self t)

theorem storedToSession_sessionToStored (s : ChatSession) :
    storedToSession (sessionToStored s) = s := by
  unfold storedToSession sessionToStored
  simp [dateFromString_dateToString]

theorem find?_set_self :
    ∀ (l : List ChatSession) (i : Nat) (u : ChatSession),
      findIndex (fun s => s.id = u.id) l = some i →
      (l.set i u).find? (fun s => s.id = u.id) = some u := by
  intro l
  induction l with
  | nil => intro i u h; simp [findIndex] at h
  | cons x xs ih =>
    intro i u h
    unfold findIndex at h
    by_cases hx : x.id = u.id
    · rw [if_pos (by simp [hx])] at h
      injection h with h
      subst h
      exact List.find?_cons_of_pos _ (by simp)
    · rw [if_neg (by simp [hx])] at h
      cases hf : findIndex (fun s => s.id = u.id) xs with
      | none => rw [hf] at h; simp at h
      | some j =>
        rw [hf, Option.map_some'] at h
        injection h with h
        subst h
        show List.find? _ (x :: xs.set j u) = some u
        rw [List.find?_cons_of_neg _ (by simp [hx])]
        exact ih j u hf

theorem find?_set_other :
    ∀ (l : List ChatSession) (i : Nat) (v : ChatSession) (id : String),
      findIndex (fun s => s.id = v.id) l = some i → v.id ≠ id →
      (l.set i v).find? (fun s => s.id = id) = l.find? (fun s => s.id = id) := by
  intro l
  induction l with
  | nil => intro i v id h _; simp [findIndex] at h
  | cons x xs ih =>
    intro i v id h hne
    unfold findIndex at h
    by_cases hx : x.id = v.id
    · rw [if_pos (by simp [hx])] at h
      injection h with h
      subst h
      show List.find? _ (v :: xs) = _
      rw [List.find?_cons_of_neg _ (by simp [hne]),
        List.find?_cons_of_neg _ (by simp [hx, hne])]
    · rw [if_neg (by simp [hx])] at h
      cases hf : findIndex (fun s => s.id = v.id) xs with
      | none => rw [hf] at h; simp at h
      | some j =>
        rw [hf, Option.map_some'] at h
        injection h with h
        subst h
        show List.find? _ (x :: xs.set j v) = _
        by_cases hxid : x.id = id
        · rw [List.find?_cons_of_pos _ (by simp [hxid]),
            List.find?_cons_of_pos _ (by simp [hxid])]
        · rw [List.find?_cons_of_neg _ (by simp [hxid]),
            List.find?_cons_of_neg _ (by simp [hxid])]
          exact ih j v id hf hne

theorem lookup_upsert_self (l : List ChatSession) (u : ChatSession) :
    (upsertList l u).find? (fun s => s.id = u.id) = some u := by
  unfold upsertList
  cases h : findIndex (fun s => s.id = u.id) l with
  | none => exact List.find?_cons_of_pos _ (by simp)
  | some i => exact find?_set_self l i u h

theorem lookup_upsert_other (l : List ChatSession) (v : ChatSession) (id : String)
    (h : v.id ≠ id) :
    (upsertList l v).find? (fun s => s.id = id) = l.find? (fun s => s.id = id) := by
  unfold upsertList
  cases hf : findIndex (fun s => s.id = v.id) l with
  | none => exact List.find?_cons_of_neg _ (by simp [h])
  | some i => exact find?_set_other l i v id hf h

theorem lookup_foldl_upsert_none :
    ∀ (us : List ChatSession) (l : List ChatSession) (id : String),
      (∀ v ∈ us, v.id ≠ id) →
      (us.foldl upsertList l).find? (fun s => s.id = id) =
        l.find? (fun s => s.id = id) := by
  intro us
  induction us with
  | nil => intro l id _; rfl
  | cons v rest ih =>
    intro l id h
    simp only [List.foldl_cons]
    rw [ih (upsertList l v) id (fun w hw => h w (List.mem_cons_of_mem _ hw)),
      lookup_upsert_other l v id (h v (List.mem_cons_self _ _))]

theorem lookup_foldl_upsert_last :
    ∀ (us l : List ChatSession) (u : ChatSession),
      (us.filter (fun s => s.id = u.id)).getLast? = some u →
      (us.foldl upsertList l).find? (fun s => s.id = u.id) = some u := by
  intro us
  induction us with
  | nil => intro l u h; simp at h
  | cons v rest ih =>
    intro l u h
    simp only [List.foldl_cons]
    by_cases hv : v.id = u.id
    · rw [List.filter_cons_of_pos (by simp [hv])] at h
      cases hfr : rest.filter (fun s => decide (s.id = u.id)) with
      | nil =>
        rw [hfr] at h
        have hvu : v = u := by simpa using h
        subst hvu
        have hnone : ∀ w ∈ rest, w.id ≠ v.id := by
          intro w hw
          have := List.filter_eq_nil_iff.mp hfr w hw
          simpa using this
        rw [lookup_foldl_upsert_none rest (upsertList l v) v.id hnone]
        exact lookup_upsert_self l v
      | cons f fr =>
        rw [hfr] at h
        rw [List.getLast?_cons_cons] at h
        rw [← hfr] at h
        exact ih (upsertList l v) u h
    · rw [List.filter_cons_of_neg (by simp [hv])] at h
      exact ih (upsertList l v) u h

theorem saveSession_hasWindow (e : Env) (u : ChatSession) :
    (saveSession e u).hasWindow = e.hasWindow ∧
      (saveSession e u).storageFails = e.storageFails := by
  unfold saveSession
  split
  · exact ⟨rfl, rfl⟩
  · split
    · exact ⟨rfl, rfl⟩
    · exact ⟨rfl, rfl⟩

theorem getAllSessions_saveSession (e : Env) (u : ChatSession)
    (hw : e.hasWindow = true) (hf : e.storageFails = false) :
    getAllSessions (saveSession e u) = upsertList (getAllSessions e) u := by
  unfold saveSession getAllSessions
  simp only [hw, hf, Bool.not_true, Bool.not_false, if_false, if_true,
    Bool.false_eq_true, List.map_map]
  have : storedToSession ∘ sessionToStored = id := by
    funext s
    exact storedToSession_sessionToStored s
  rw [this, List.map_id]

theorem getAllSessions_setCurrentSessionId (e : Env) (sid : String) :
    getAllSessions (setCurrentSessionId e sid) = getAllSessions e := by
  unfold setCurrentSessionId
  split
  · rfl
  · split
    · rfl
    · unfold getAllSessions
      rfl

theorem getAllSessions_deleteSession (e : Env) (sid : String)
    (hw : e.hasWindow = true) (hf : e.storageFails = false) :
    getAllSessions (deleteSession e sid) =
      (getAllSessions e).filter (fun s => !(s.id = sid)) := by
  unfold deleteSession getAllSessions
  simp only [hw, hf, Bool.not_true, Bool.not_false, if_false, if_true,
    Bool.false_eq_true, List.map_map]
  have : storedToSession ∘ sessionToStored = id := by
    funext s
    exact storedToSession_sessionToStored s
  rw [this, List.map_id]

theorem lastUser_eq_none_iff :
    ∀ msgs : List Message, lastUser msgs = none ↔ ∀ m ∈ msgs, m.role ≠ Role.user := by
  intro msgs
  induction msgs with
  | nil => simp [lastUser]
  | cons m rest ih =>
    unfold lastUser
    cases h : lastUser rest with
    | some p =>
      obtain ⟨i, u⟩ := p
      constructor
      · intro hc
        exact absurd hc (by simp)
      · intro hall
        have h0 : lastUser rest = none :=
          ih.mpr fun w hw => hall w (List.mem_cons_of_mem _ hw)
        rw [h0] at h
        exact absurd h (by simp)
    | none =>
      by_cases hm : m.role = Role.user
      · rw [if_pos hm]
        constructor
        · intro hc
          exact absurd hc (by simp)
        · intro hall
          exact absurd hm (hall m (List.mem_cons_self _ _))
      · rw [if_neg hm]
        constructor
        · intro _ w hw
          rcases List.mem_cons.mp hw with rfl | hw2
          · exact hm
          · exact (ih.mp h) w hw2
        · intro _
          rfl

theorem handleRegenerateResponse_noop (st : HomeState) (i : Nat) (fid : String)
    (h : lastUser (st.displayMessages.take i) = none) :
    handleRegenerateResponse st i fid = st := by
  unfold handleRegenerateResponse
  simp only [h]

theorem handleRegenerateResponse_spec (st : HomeState) (i : Nat) (fid : String)
    (j : Nat) (u : Message)
    (h : lastUser (st.displayMessages.take i) = some (j, u)) :
    (handleRegenerateResponse st i fid).streamMessages =
      (st.displayMessages.take i).take j ++ [⟨fid, Role.user, u.parts⟩] ∧
    (handleRegenerateResponse st i fid).status = ChatStatus.submitted ∧
    (handleRegenerateResponse st i fid).displayMessages = st.displayMessages := by
  unfold handleRegenerateResponse
  simp only [h]
  cases hc : st.currentSessionId <;> simp [sendMessage]

theorem handleSaveEdit_noop (st : HomeState) (i : Nat) (fid : String)
    (h : jsTrim st.editingText = "") :
    handleSaveEdit st i fid = st := by
  unfold handleSaveEdit
  rw [if_pos h]

theorem handleSaveEdit_spec (st : HomeState) (i : Nat) (fid : String)
    (h : jsTrim st.editingText ≠ "") :
    (handleSaveEdit st i fid).streamMessages =
      st.displayMessages.take i ++
        [⟨fid, Role.user, [Part.text (jsTrim st.editingText)]⟩] ∧
    (handleSaveEdit st i fid).status = ChatStatus.submitted := by
  unfold handleSaveEdit
  rw [if_neg h]
  cases hc : st.currentSessionId <;> simp [sendMessage]

theorem sessionBucket_lt (today t : Int) : sessionBucket today t < 5 := by
  unfold sessionBucket dayMs
  split_ifs <;> omega

theorem inBucketInterval_today (today t : Int) :
    inBucketInterval today "Today" t ↔ today ≤ t := by
  unfold inBucketInterval
  rw [if_pos rfl]

theorem inBucketInterval_yesterday (today t : Int) :
    inBucketInterval today "Yesterday" t ↔ today - dayMs ≤ t ∧ t < today := by
  unfold inBucketInterval
  rw [if_neg (by decide), if_pos rfl]

theorem inBucketInterval_week (today t : Int) :
    inBucketInterval today "Last 7 Days" t ↔
      today - 7 * dayMs ≤ t ∧ t < today - dayMs := by
  unfold inBucketInterval
  rw [if_neg (by decide), if_neg (by decide), if_pos rfl]

theorem inBucketInterval_month (today t : Int) :
    inBucketInterval today "Last 30 Days" t ↔
      today - 30 * dayMs ≤ t ∧ t < today - 7 * dayMs := by
  unfold inBucketInterval
  rw [if_neg (by decide), if_neg (by decide), if_neg (by decide), if_pos rfl]

theorem inBucketInterval_older (today t : Int) :
    inBucketInterval today "Older" t ↔ t < today - 30 * dayMs := by
  unfold inBucketInterval
  rw [if_neg (by decide), if_neg (by decide), if_neg (by decide),
    if_neg (by decide), if_pos rfl]

theorem sessionBucket_eq_iff (today t : Int) :
    (sessionBucket today t = 0 ↔ inBucketInterval today "Today" t) ∧
    (sessionBucket today t = 1 ↔ inBucketInterval today "Yesterday" t) ∧
    (sessionBucket today t = 2 ↔ inBucketInterval today "Last 7 Days" t) ∧
    (sessionBucket today t = 3 ↔ inBucketInterval today "Last 30 Days" t) ∧
    (sessionBucket today t = 4 ↔ inBucketInterval today "Older" t) := by
  rw [inBucketInterval_today, inBucketInterval_yesterday, inBucketInterval_week,
    inBucketInterval_month, inBucketInterval_older]
  unfold sessionBucket dayMs
  split_ifs <;> refine ⟨⟨?_, ?_⟩, ⟨?_, ?_⟩, ⟨?_, ?_⟩, ⟨?_, ?_⟩, ⟨?_, ?_⟩⟩ <;>
    intro hX <;> (try obtain ⟨hX1, hX2⟩ := hX) <;> omega

theorem getAllSessions_foldl_saveSession :
    ∀ (us : List ChatSession) (e : Env),
      e.hasWindow = true → e.storageFails = false →
      getAllSessions (us.foldl saveSession e) =
        us.foldl upsertList (getAllSessions e) := by
  intro us
  induction us with
  | nil => intro e _ _; rfl
  | cons u rest ih =>
    intro e hw hf
    simp only [List.foldl_cons]
    rw [ih (saveSession e u) ((saveSession_hasWindow e u).1.trans hw)
        ((saveSession_hasWindow e u).2.trans hf),
      getAllSessions_saveSession e u hw hf]

theorem groupSessionsByDate_exactly_one (sessions : List ChatSession) (now : Int)
    (s : ChatSession) (hs : s ∈ sessions) :
    ∃! g : SessionGroup,
      g ∈ groupSessionsByDate sessions now ∧ s ∈ g.sessions := by
  set today := startOfDay now with htoday
  set b := sessionBucket today (s.updatedAt : Int) with hb
  have hb5 : b < 5 := by rw [hb]; exact sessionBucket_lt _ _
  have huniq : ∀ g g' : SessionGroup,
      (g ∈ groupSessionsByDate sessions now ∧ s ∈ g.sessions) →
      (g' ∈ groupSessionsByDate sessions now ∧ s ∈ g'.sessions) → g = g' := by
    intro g g' hg hg'
    obtain ⟨hgm, hgs⟩ := hg
    obtain ⟨hgm2, hgs2⟩ := hg'
    unfold groupSessionsByDate at hgm hgm2
    simp only [List.mem_filter] at hgm hgm2
    have h5 := hgm.1
    have h52 := hgm2.1
    simp only [List.mem_cons, List.not_mem_nil, or_false] at h5 h52
    rcases h5 with rfl | rfl | rfl | rfl | rfl <;>
      rcases h52 with rfl | rfl | rfl | rfl | rfl <;>
      simp only [List.mem_filter, decide_eq_true_eq] at hgs hgs2 <;>
      first
        | rfl
        | exact absurd (hgs.2.symm.trans hgs2.2) (by decide)
  have hex : ∃ g : SessionGroup,
      g ∈ groupSessionsByDate sessions now ∧ s ∈ g.sessions := by
    unfold groupSessionsByDate
    interval_cases b
    · have hsmem : s ∈ sessions.filter
          (fun q => sessionBucket today (q.updatedAt : Int) = 0) :=
        List.mem_filter.mpr ⟨hs, by simp [← hb]⟩
      exact ⟨⟨"Today", sessions.filter
          (fun q => sessionBucket today (q.updatedAt : Int) = 0)⟩,
        List.mem_filter.mpr ⟨by simp [List.mem_cons],
          by simpa using List.length_pos.mpr (List.ne_nil_of_mem hsmem)⟩,
        hsmem⟩
    · have hsmem : s ∈ sessions.filter
          (fun q => sessionBucket today (q.updatedAt : Int) = 1) :=
        List.mem_filter.mpr ⟨hs, by simp [← hb]⟩
      exact ⟨⟨"Yesterday", sessions.filter
          (fun q => sessionBucket today (q.updatedAt : Int) = 1)⟩,
        List.mem_filter.mpr ⟨by simp [List.mem_cons],
          by simpa using List.length_pos.mpr (List.ne_nil_of_mem hsmem)⟩,
        hsmem⟩
    · have hsmem : s ∈ sessions.filter
          (fun q => sessionBucket today (q.updatedAt : Int) = 2) :=
        List.mem_filter.mpr ⟨hs, by simp [← hb]⟩
      exact ⟨⟨"Last 7 Days", sessions.filter
          (fun q => sessionBucket today (q.updatedAt : Int) = 2)⟩,
        List.mem_filter.mpr ⟨by simp [List.mem_cons],
          by simpa using List.length_pos.mpr (List.ne_nil_of_mem hsmem)⟩,
        hsmem⟩
    · have hsmem : s ∈ sessions.filter
          (fun q => sessionBucket today (q.updatedAt : Int) = 3) :=
        List.mem_filter.mpr ⟨hs, by simp [← hb]⟩
      exact ⟨⟨"Last 30 Days", sessions.filter
          (fun q => sessionBucket today (q.updatedAt : Int) = 3)⟩,
        List.mem_filter.mpr ⟨by simp [List.mem_cons],
          by simpa using List.length_pos.mpr (List.ne_nil_of_mem hsmem)⟩,
        hsmem⟩
    · have hsmem : s ∈ sessions.filter
          (fun q => sessionBucket today (q.updatedAt : Int) = 4) :=
        List.mem_filter.mpr ⟨hs, by simp [← hb]⟩
      exact ⟨⟨"Older", sessions.filter
          (fun q => sessionBucket today (q.updatedAt : Int) = 4)⟩,
        List.mem_filter.mpr ⟨by simp [List.mem_cons],
          by simpa using List.length_pos.mpr (List.ne_nil_of_mem hsmem)⟩,
        hsmem⟩

  obtain ⟨g0, hg0⟩ := hex
  exact ⟨g0, hg0, fun y hy => huniq y g0 hy hg0⟩

theorem groupSessionsByDate_nonempty (sessions : List ChatSession) (now : Int) :
    ∀ g ∈ groupSessionsByDate sessions now, g.sessions ≠ [] := by
  intro g hg
  unfold groupSessionsByDate at hg
  simp only [List.mem_filter] at hg
  have := hg.2
  simp only [decide_eq_true_eq] at this
  exact List.ne_nil_of_length_pos this

theorem groupSessionsByDate_labels (sessions : List ChatSession) (now : Int) :
    ((groupSessionsByDate sessions now).map SessionGroup.label).Sublist
      ["Today", "Yesterday", "Last 7 Days", "Last 30 Days", "Older"] := by
  unfold groupSessionsByDate
  exact List.Sublist.map _ (List.filter_sublist _)

theorem groupSessionsByDate_interval (sessions : List ChatSession) (now : Int) :
    ∀ g ∈ groupSessionsByDate sessions now, ∀ s : ChatSession,
      s ∈ g.sessions ↔ s ∈ sessions ∧
        inBucketInterval (startOfDay now) g.label (s.updatedAt : Int) := by
  intro g hg s
  unfold groupSessionsByDate at hg
  simp only [List.mem_filter] at hg
  have h5 := hg.1
  simp only [List.mem_cons, List.not_mem_nil, or_false] at h5
  have hiff := sessionBucket_eq_iff (startOfDay now) (s.updatedAt : Int)
  rcases h5 with rfl | rfl | rfl | rfl | rfl <;>
    simp only [List.mem_filter, decide_eq_true_eq]
  · exact and_congr_right fun _ => hiff.1
  · exact and_congr_right fun _ => hiff.2.1
  · exact and_congr_right fun _ => hiff.2.2.1
  · exact and_congr_right fun _ => hiff.2.2.2.1
  · exact and_congr_right fun _ => hiff.2.2.2.2

/-! ## Claims -/

/-- C1 counterexample: the store already holds a record with id `"s"` whose
`createdAt` decodes to `5`, yet a persistence of the live list at time `7`
stores `createdAt = 7` — the existing record's `createdAt` is not preserved,
contradicting the claim. -/
theorem C1_counterexample :
    ((getAllSessions (saveStreamingSessionEffect
        { currentSessionId := some "s",
          activeStreamingSessionId := some "s",
          streamMessages := [⟨"m1", Role.user, [Part.text "hi"]⟩],
          displayMessages := [],
          status := ChatStatus.streaming,
          input := "",
          sessions := [],
          sidebarOpen := false,
          editingMessageId := none,
          editingText := "",
          env := ⟨true, false,
            StoredValue.val [sessionToStored
              ⟨"s", "t", [⟨"m1", Role.user, [Part.text "hi"]⟩], 5, 5⟩],
            none⟩ } 7).env).find? (fun r => r.id = "s")).map
      ChatSession.createdAt = some 7 ∧
    ((getAllSessions (⟨true, false,
        StoredValue.val [sessionToStored
          ⟨"s", "t", [⟨"m1", Role.user, [Part.text "hi"]⟩], 5, 5⟩],
        none⟩ : Env)).find? (fun r => r.id = "s")).map
      ChatSession.createdAt = some 5 ∧
    (7 : Nat) ≠ 5 := by
  decide

/-- C1 (amended): every persistence of the live message list by the
save-streaming-session effect upserts a record whose `createdAt` (and
`updatedAt`) equal the current time of that persistence, overwriting any
`createdAt` already stored under the bound session id. -/
theorem C1_createdAt_always_now (st : HomeState) (now : Nat) (sid : String)
    (hb : st.activeStreamingSessionId = some sid)
    (hm : ¬st.streamMessages.length = 0)
    (hw : st.env.hasWindow = true) (hf : st.env.storageFails = false) :
    (getAllSessions (saveStreamingSessionEffect st now).env).find?
        (fun r => r.id = sid) =
      some ⟨sid, generateSessionTitle st.streamMessages, st.streamMessages,
        now, now⟩ := by
  unfold saveStreamingSessionEffect
  rw [if_neg hm]
  simp only [hb]
  by_cases hc : st.currentSessionId = some sid <;>
    simp only [hc, if_true, if_false, reduceIte] <;>
    rw [getAllSessions_saveSession st.env _ hw hf] <;>
    exact lookup_upsert_self (getAllSessions st.env)
      ⟨sid, generateSessionTitle st.streamMessages, st.streamMessages, now, now⟩

/-- Witness for C1 at a concrete state and time. -/
theorem C1_createdAt_always_now_witness :
    (getAllSessions (saveStreamingSessionEffect
        { currentSessionId := some "s",
          activeStreamingSessionId := some "s",
          streamMessages := [⟨"m1", Role.user, [Part.text "hi"]⟩],
          displayMessages := [],
          status := ChatStatus.streaming,
          input := "",
          sessions := [],
          sidebarOpen := false,
          editingMessageId := none,
          editingText := "",
          env := ⟨true, false, StoredValue.absent, none⟩ } 7).env).find?
      (fun r => r.id = "s") =
      some ⟨"s", generateSessionTitle [⟨"m1", Role.user, [Part.text "hi"]⟩],
        [⟨"m1", Role.user, [Part.text "hi"]⟩], 7, 7⟩ :=
  C1_createdAt_always_now _ 7 "s" rfl (by decide) rfl rfl

/-- C2 counterexample: a stream is in flight (status `streaming`) bound to
session `"A"` while session `"B"` is displayed; `handleDeleteSession "A"`
leaves the binding at `"A"` and the status at `streaming`, so the stream is
neither terminated nor detached, contradicting the claim. -/
theorem C2_counterexample :
    (handleDeleteSession
        { currentSessionId := some "B",
          activeStreamingSessionId := some "A",
          streamMessages := [⟨"m1", Role.user, [Part.text "hi"]⟩],
          displayMessages := [],
          status := ChatStatus.streaming,
          input := "",
          sessions := [],
          sidebarOpen := false,
          editingMessageId := none,
          editingText := "",
          env := ⟨true, false,
            StoredValue.val [sessionToStored ⟨"A", "t", [], 1, 1⟩],
            none⟩ } "A").activeStreamingSessionId = some "A" ∧
    (handleDeleteSession
        { currentSessionId := some "B",
          activeStreamingSessionId := some "A",
          streamMessages := [⟨"m1", Role.user, [Part.text "hi"]⟩],
          displayMessages := [],
          status := ChatStatus.streaming,
          input := "",
          sessions := [],
          sidebarOpen := false,
          editingMessageId := none,
          editingText := "",
          env := ⟨true, false,
            StoredValue.val [sessionToStored ⟨"A", "t", [], 1, 1⟩],
            none⟩ } "A").status = ChatStatus.streaming ∧
    ChatStatus.streaming ≠ ChatStatus.ready := by
  decide

/-- C2 (amended): `handleDeleteSession` is total (never throws) and removes
the record from the store, but it never changes the stream status (no abort is
issued); the bound session id is cleared only when the deleted id is the
currently displayed session, and is left untouched otherwise. -/
theorem C2_deleteSession_behavior (st : HomeState) (sid : String) :
    (handleDeleteSession st sid).status = st.status ∧
    (st.currentSessionId = some sid →
      (handleDeleteSession st sid).activeStreamingSessionId = none ∧
      (handleDeleteSession st sid).currentSessionId = none ∧
      (handleDeleteSession st sid).streamMessages = []) ∧
    (st.currentSessionId ≠ some sid →
      (handleDeleteSession st sid).activeStreamingSessionId =
        st.activeStreamingSessionId ∧
      (handleDeleteSession st sid).currentSessionId = st.currentSessionId ∧
      (handleDeleteSession st sid).streamMessages = st.streamMessages) ∧
    (st.env.hasWindow = true → st.env.storageFails = false →
      getAllSessions (handleDeleteSession st sid).env =
        (getAllSessions st.env).filter (fun s => !(s.id = sid))) := by
  refine ⟨?_, ?_, ?_, ?_⟩
  · by_cases hc : st.currentSessionId = some sid <;>
      simp [handleDeleteSession, handleNewSession, hc]
  · intro hc
    simp [handleDeleteSession, handleNewSession, hc]
  · intro hc
    simp [handleDeleteSession, handleNewSession, hc]
  · intro hw hf
    have hdel := getAllSessions_deleteSession st.env sid hw hf
    by_cases hc : st.currentSessionId = some sid <;>
      simp [handleDeleteSession, handleNewSession, hc,
        getAllSessions_setCurrentSessionId, hdel]

/-- Witness for C2 at a concrete state. -/
theorem C2_deleteSession_behavior_witness :
    (handleDeleteSession
        { currentSessionId := some "A",
          activeStreamingSessionId := some "A",
          streamMessages := [],
          displayMessages := [],
          status := ChatStatus.ready,
          input := "",
          sessions := [],
          sidebarOpen := false,
          editingMessageId := none,
          editingText := "",
          env := ⟨true, false, StoredValue.absent, none⟩ } "A").activeStreamingSessionId =
      none :=
  ((C2_deleteSession_behavior _ "A").2.1 rfl).1

/-- C3 (confirmed): regenerate on the displayed list `[U1, A1, U2, A2]` at
the index of `A2` truncates the live list to `[U1, A1]` and resubmits `U2`'s
parts unchanged, so the live list becomes `[U1, A1, U2']` with
`U2'.parts = U2.parts`, and streaming completion appends the fresh assistant
reply in `A2`'s position. -/
theorem C3_regenerate (u1 a1 u2 a2 : Message) (st : HomeState)
    (fid aid : String) (ap : List Part)
    (hu1 : u1.role = Role.user) (ha1 : a1.role = Role.assistant)
    (hu2 : u2.role = Role.user) (ha2 : a2.role = Role.assistant)
    (hd : st.displayMessages = [u1, a1, u2, a2]) :
    (handleRegenerateResponse st 3 fid).streamMessages =
      [u1, a1, ⟨fid, Role.user, u2.parts⟩] ∧
    (handleRegenerateResponse st 3 fid).status = ChatStatus.submitted ∧
    (streamFinish (handleRegenerateResponse st 3 fid) aid ap).streamMessages =
      [u1, a1, ⟨fid, Role.user, u2.parts⟩, ⟨aid, Role.assistant, ap⟩] := by
  have hl : lastUser (st.displayMessages.take 3) = some (2, u2) := by
    rw [hd]
    simp [lastUser, hu2, List.take]
  obtain ⟨h1, h2, _⟩ := handleRegenerateResponse_spec st 3 fid 2 u2 hl
  rw [hd] at h1
  simp only [List.take] at h1
  refine ⟨h1, h2, ?_⟩
  unfold streamFinish
  simp [h1]

/-- Witness for C3 at a concrete state. -/
theorem C3_regenerate_witness :
    (handleRegenerateResponse
        { currentSessionId := some "s",
          activeStreamingSessionId := none,
          streamMessages := [⟨"u1", Role.user, [Part.text "q1"]⟩,
            ⟨"a1", Role.assistant, [Part.text "r1"]⟩,
            ⟨"u2", Role.user, [Part.text "q2"]⟩,
            ⟨"a2", Role.assistant, [Part.text "r2"]⟩],
          displayMessages := [⟨"u1", Role.user, [Part.text "q1"]⟩,
            ⟨"a1", Role.assistant, [Part.text "r1"]⟩,
            ⟨"u2", Role.user, [Part.text "q2"]⟩,
            ⟨"a2", Role.assistant, [Part.text "r2"]⟩],
          status := ChatStatus.ready,
          input := "",
          sessions := [],
          sidebarOpen := false,
          editingMessageId := none,
          editingText := "",
          env := ⟨true, false, StoredValue.absent, none⟩ } 3 "u2f").streamMessages =
      [⟨"u1", Role.user, [Part.text "q1"]⟩,
        ⟨"a1", Role.assistant, [Part.text "r1"]⟩,
        ⟨"u2f", Role.user, [Part.text "q2"]⟩] :=
  (C3_regenerate ⟨"u1", Role.user, [Part.text "q1"]⟩
    ⟨"a1", Role.assistant, [Part.text "r1"]⟩
    ⟨"u2", Role.user, [Part.text "q2"]⟩
    ⟨"a2", Role.assistant, [Part.text "r2"]⟩ _ "u2f" "x" []
    rfl rfl rfl rfl rfl).1

/-- C4 counterexample: editing `U2` with the non-empty replacement text
`" x "` produces a user message whose single text part is the trimmed `"x"`,
not `" x "` — the claim's "single text part equal to t" fails for text with
surrounding whitespace. -/
theorem C4_counterexample :
    (handleSaveEdit
        { currentSessionId := some "s",
          activeStreamingSessionId := none,
          streamMessages := [⟨"u1", Role.user, [Part.text "q1"]⟩,
            ⟨"a1", Role.assistant, [Part.text "r1"]⟩,
            ⟨"u2", Role.user, [Part.text "q2"]⟩,
            ⟨"a2", Role.assistant, [Part.text "r2"]⟩],
          displayMessages := [⟨"u1", Role.user, [Part.text "q1"]⟩,
            ⟨"a1", Role.assistant, [Part.text "r1"]⟩,
            ⟨"u2", Role.user, [Part.text "q2"]⟩,
            ⟨"a2", Role.assistant, [Part.text "r2"]⟩],
          status := ChatStatus.ready,
          input := "",
          sessions := [],
          sidebarOpen := false,
          editingMessageId := some "u2",
          editingText := " x ",
          env := ⟨true, false, StoredValue.absent, none⟩ } 2 "u2f").streamMessages =
      [⟨"u1", Role.user, [Part.text "q1"]⟩,
        ⟨"a1", Role.assistant, [Part.text "r1"]⟩,
        ⟨"u2f", Role.user, [Part.text "x"]⟩] ∧
    [Part.text "x"] ≠ [Part.text " x "] := by
  decide

/-- C4 (amended): editAndBranch targeting `U2` with replacement text whose
whitespace-trim is non-empty truncates the live list to `[U1, A1]` and
resubmits a user message whose single text part is the trimmed text (not the
text verbatim); after completion the list is `[U1, A1, U2', A2']`; when the
replacement text trims to empty the operation is a no-op. -/
theorem C4_editAndBranch (u1 a1 u2 a2 : Message) (st : HomeState)
    (fid aid : String) (ap : List Part)
    (hu1 : u1.role = Role.user) (ha1 : a1.role = Role.assistant)
    (hu2 : u2.role = Role.user) (ha2 : a2.role = Role.assistant)
    (hd : st.displayMessages = [u1, a1, u2, a2])
    (hne : jsTrim st.editingText ≠ "") :
    (handleSaveEdit st 2 fid).streamMessages =
      [u1, a1, ⟨fid, Role.user, [Part.text (jsTrim st.editingText)]⟩] ∧
    (handleSaveEdit st 2 fid).status = ChatStatus.submitted ∧
    (streamFinish (handleSaveEdit st 2 fid) aid ap).streamMessages =
      [u1, a1, ⟨fid, Role.user, [Part.text (jsTrim st.editingText)]⟩,
        ⟨aid, Role.assistant, ap⟩] ∧
    (∀ (st2 : HomeState) (i : Nat) (fid2 : String),
      jsTrim st2.editingText = "" → handleSaveEdit st2 i fid2 = st2) := by
  obtain ⟨h1, h2⟩ := handleSaveEdit_spec st 2 fid hne
  rw [hd] at h1
  simp only [List.take] at h1
  refine ⟨h1, h2, ?_, fun st2 i fid2 h => handleSaveEdit_noop st2 i fid2 h⟩
  unfold streamFinish
  simp [h1]

/-- Witness for C4 at a concrete state. -/
theorem C4_editAndBranch_witness :
    (handleSaveEdit
        { currentSessionId := some "s",
          activeStreamingSessionId := none,
          streamMessages := [⟨"u1", Role.user, [Part.text "q1"]⟩,
            ⟨"a1", Role.assistant, [Part.text "r1"]⟩,
            ⟨"u2", Role.user, [Part.text "q2"]⟩,
            ⟨"a2", Role.assistant, [Part.text "r2"]⟩],
          displayMessages := [⟨"u1", Role.user, [Part.text "q1"]⟩,
            ⟨"a1", Role.assistant, [Part.text "r1"]⟩,
            ⟨"u2", Role.user, [Part.text "q2"]⟩,
            ⟨"a2", Role.assistant, [Part.text "r2"]⟩],
          status := ChatStatus.ready,
          input := "",
          sessions := [],
          sidebarOpen := false,
          editingMessageId := some "u2",
          editingText := "new text",
          env := ⟨true, false, StoredValue.absent, none⟩ } 2 "u2f").streamMessages =
      [⟨"u1", Role.user, [Part.text "q1"]⟩,
        ⟨"a1", Role.assistant, [Part.text "r1"]⟩,
        ⟨"u2f", Role.user, [Part.text (jsTrim "new text")]⟩] :=
  (C4_editAndBranch ⟨"u1", Role.user, [Part.text "q1"]⟩
    ⟨"a1", Role.assistant, [Part.text "r1"]⟩
    ⟨"u2", Role.user, [Part.text "q2"]⟩
    ⟨"a2", Role.assistant, [Part.text "r2"]⟩ _ "u2f" "x" []
    rfl rfl rfl rfl rfl (by decide)).1

/-- C5 counterexample: regenerate called at index 2, which points at the
user message `U2` (wrong role — the claim requires a no-op), instead
truncates everything and resubmits `U1`'s parts: the live list changes to
`[U1']` and a stream submission is started. -/
theorem C5_counterexample :
    (handleRegenerateResponse
        { currentSessionId := some "s",
          activeStreamingSessionId := none,
          streamMessages := [⟨"u1", Role.user, [Part.text "q1"]⟩,
            ⟨"a1", Role.assistant, [Part.text "r1"]⟩,
            ⟨"u2", Role.user, [Part.text "q2"]⟩,
            ⟨"a2", Role.assistant, [Part.text "r2"]⟩],
          displayMessages := [⟨"u1", Role.user, [Part.text "q1"]⟩,
            ⟨"a1", Role.assistant, [Part.text "r1"]⟩,
            ⟨"u2", Role.user, [Part.text "q2"]⟩,
            ⟨"a2", Role.assistant, [Part.text "r2"]⟩],
          status := ChatStatus.ready,
          input := "",
          sessions := [],
          sidebarOpen := false,
          editingMessageId := none,
          editingText := "",
          env := ⟨true, false, StoredValue.absent, none⟩ } 2 "f").streamMessages =
      [⟨"f", Role.user, [Part.text "q1"]⟩] ∧
    [(⟨"f", Role.user, [Part.text "q1"]⟩ : Message)] ≠
      [⟨"u1", Role.user, [Part.text "q1"]⟩,
        ⟨"a1", Role.assistant, [Part.text "r1"]⟩,
        ⟨"u2", Role.user, [Part.text "q2"]⟩,
        ⟨"a2", Role.assistant, [Part.text "r2"]⟩] ∧
    (handleRegenerateResponse
        { currentSessionId := some "s",
          activeStreamingSessionId := none,
          streamMessages := [⟨"u1", Role.user, [Part.text "q1"]⟩,
            ⟨"a1", Role.assistant, [Part.text "r1"]⟩,
            ⟨"u2", Role.user, [Part.text "q2"]⟩,
            ⟨"a2", Role.assistant, [Part.text "r2"]⟩],
          displayMessages := [⟨"u1", Role.user, [Part.text "q1"]⟩,
            ⟨"a1", Role.assistant, [Part.text "r1"]⟩,
            ⟨"u2", Role.user, [Part.text "q2"]⟩,
            ⟨"a2", Role.assistant, [Part.text "r2"]⟩],
          status := ChatStatus.ready,
          input := "",
          sessions := [],
          sidebarOpen := false,
          editingMessageId := none,
          editingText := "",
          env := ⟨true, false, StoredValue.absent, none⟩ } 2 "f").status =
      ChatStatus.submitted ∧
    (⟨"u2", Role.user, [Part.text "q2"]⟩ : Message).role = Role.user := by
  decide

/-- C5 (amended): both operations are total (never crash), but invalid
indices are not generally no-ops.  Regenerate is a no-op exactly when no
user-role message precedes the index; otherwise — including out-of-range or
wrong-role indices — it truncates to before the last preceding user message
and resubmits that message's parts.  EditAndBranch is a no-op exactly when
the edit text trims to empty, and otherwise truncates at the index and
starts a submission even for out-of-range or wrong-role indices. -/
theorem C5_invalid_index_behavior :
    (∀ (st : HomeState) (i : Nat) (fid : String),
      (∀ m ∈ st.displayMessages.take i, m.role ≠ Role.user) →
      handleRegenerateResponse st i fid = st) ∧
    (∀ (st : HomeState) (i : Nat) (fid : String) (j : Nat) (u : Message),
      lastUser (st.displayMessages.take i) = some (j, u) →
      (handleRegenerateResponse st i fid).streamMessages =
        (st.displayMessages.take i).take j ++ [⟨fid, Role.user, u.parts⟩] ∧
      (handleRegenerateResponse st i fid).status = ChatStatus.submitted) ∧
    (∀ (st : HomeState) (i : Nat) (fid : String),
      jsTrim st.editingText = "" → handleSaveEdit st i fid = st) ∧
    (∀ (st : HomeState) (i : Nat) (fid : String),
      jsTrim st.editingText ≠ "" →
      (handleSaveEdit st i fid).streamMessages =
        st.displayMessages.take i ++
          [⟨fid, Role.user, [Part.text (jsTrim st.editingText)]⟩] ∧
      (handleSaveEdit st i fid).status = ChatStatus.submitted) :=
  ⟨fun st i fid h => handleRegenerateResponse_noop st i fid
      ((lastUser_eq_none_iff _).mpr h),
   fun st i fid j u h => ⟨(handleRegenerateResponse_spec st i fid j u h).1,
      (handleRegenerateResponse_spec st i fid j u h).2.1⟩,
   fun st i fid h => handleSaveEdit_noop st i fid h,
   fun st i fid h => handleSaveEdit_spec st i fid h⟩

/-- Witness for C5 at a concrete state: regenerate at index 0 (no preceding
user message) is a no-op. -/
theorem C5_invalid_index_behavior_witness :
    handleRegenerateResponse
        { currentSessionId := some "s",
          activeStreamingSessionId := none,
          streamMessages := [⟨"u1", Role.user, [Part.text "q1"]⟩],
          displayMessages := [⟨"u1", Role.user, [Part.text "q1"]⟩],
          status := ChatStatus.ready,
          input := "",
          sessions := [],
          sidebarOpen := false,
          editingMessageId := none,
          editingText := "",
          env := ⟨true, false, StoredValue.absent, none⟩ } 0 "f" =
      { currentSessionId := some "s",
        activeStreamingSessionId := none,
        streamMessages := [⟨"u1", Role.user, [Part.text "q1"]⟩],
        displayMessages := [⟨"u1", Role.user, [Part.text "q1"]⟩],
        status := ChatStatus.ready,
        input := "",
        sessions := [],
        sidebarOpen := false,
        editingMessageId := none,
        editingText := "",
        env := ⟨true, false, StoredValue.absent, none⟩ } :=
  C5_invalid_index_behavior.1 _ 0 "f" (by decide)

/-- C6 counterexample: a first user message whose first text part is the
empty string titles to `"New Chat"` (the falsy check fires), whereas the
claim's "otherwise" branch predicts the empty string. -/
theorem C6_counterexample :
    generateSessionTitle [⟨"1", Role.user, [Part.text ""]⟩] = "New Chat" ∧
    ("New Chat" : String) ≠ "" := by
  decide

/-- C6 (amended): deriveTitle returns `"New Chat"` when no user message
exists, when the first user message has no text part, or when its first text
part's text is the empty string; otherwise, with `t` the whitespace-trimmed
text, it returns `t` unchanged when `t` has at most 50 characters and the
50-character prefix of `t` followed by `"..."` when `t` is longer. -/
theorem C6_deriveTitle (msgs : List Message) :
    (msgs.find? (fun m => m.role = Role.user) = none →
      generateSessionTitle msgs = "New Chat") ∧
    (∀ u, msgs.find? (fun m => m.role = Role.user) = some u →
      (u.parts.find? isTextPart = none →
        generateSessionTitle msgs = "New Chat") ∧
      (∀ s, u.parts.find? isTextPart = some (Part.text s) →
        (s = "" → generateSessionTitle msgs = "New Chat") ∧
        (s ≠ "" → jsLength (jsTrim s) ≤ 50 →
          generateSessionTitle msgs = jsTrim s) ∧
        (s ≠ "" → jsLength (jsTrim s) > 50 →
          generateSessionTitle msgs = jsTake (jsTrim s) 50 ++ "..."))) := by
  refine ⟨?_, ?_⟩
  · intro h
    unfold generateSessionTitle
    rw [h]
  · intro u hu
    refine ⟨?_, ?_⟩
    · intro hp
      unfold generateSessionTitle
      simp only [hu, hp]
    · intro s hp
      refine ⟨?_, ?_, ?_⟩
      · intro hse
        unfold generateSessionTitle
        simp only [hu, hp, textOfPart, hse, if_pos]
      · intro hne hle
        unfold generateSessionTitle
        simp only [hu, hp, textOfPart]
        rw [if_neg hne, if_neg (by omega)]
      · intro hne hgt
        unfold generateSessionTitle
        simp only [hu, hp, textOfPart]
        rw [if_neg hne, if_pos hgt]

/-- Witness for C6: the 51-character text is truncated to a 50-character
prefix plus the ellipsis marker, the 50-character text is returned unchanged,
and the empty message list titles to "New Chat". -/
theorem C6_deriveTitle_witness :
    generateSessionTitle [⟨"1", Role.user,
        [Part.text "123456789012345678901234567890123456789012345678901"]⟩] =
      jsTake (jsTrim "123456789012345678901234567890123456789012345678901") 50
        ++ "..." ∧
    generateSessionTitle [⟨"1", Role.user,
        [Part.text "12345678901234567890123456789012345678901234567890"]⟩] =
      jsTrim "12345678901234567890123456789012345678901234567890" ∧
    generateSessionTitle [] = "New Chat" :=
  ⟨(((C6_deriveTitle [⟨"1", Role.user,
        [Part.text "123456789012345678901234567890123456789012345678901"]⟩]).2
      ⟨"1", Role.user,
        [Part.text "123456789012345678901234567890123456789012345678901"]⟩
      (by decide)).2
      "123456789012345678901234567890123456789012345678901"
      (by decide)).2.2 (by decide) (by decide),
   (((C6_deriveTitle [⟨"1", Role.user,
        [Part.text "12345678901234567890123456789012345678901234567890"]⟩]).2
      ⟨"1", Role.user,
        [Part.text "12345678901234567890123456789012345678901234567890"]⟩
      (by decide)).2
      "12345678901234567890123456789012345678901234567890"
      (by decide)).2.1 (by decide) (by decide),
   (C6_deriveTitle []).1 rfl⟩

/-- C7 (confirmed): `groupSessionsByDate` places every input session in
exactly one output bucket, membership in a bucket is determined by the
session's `updatedAt` against the half-open interval of that bucket's label
anchored to the start of the reference day, empty buckets are omitted, and
the emitted labels always appear in the fixed order Today, Yesterday,
Last 7 Days, Last 30 Days, Older. -/
theorem C7_groupByRecency_partition (sessions : List ChatSession) (now : Int) :
    (∀ s ∈ sessions, ∃! g : SessionGroup,
      g ∈ groupSessionsByDate sessions now ∧ s ∈ g.sessions) ∧
    (∀ g ∈ groupSessionsByDate sessions now, ∀ s : ChatSession,
      s ∈ g.sessions ↔ s ∈ sessions ∧
        inBucketInterval (startOfDay now) g.label (s.updatedAt : Int)) ∧
    (∀ g ∈ groupSessionsByDate sessions now, g.sessions ≠ []) ∧
    ((groupSessionsByDate sessions now).map SessionGroup.label).Sublist
      ["Today", "Yesterday", "Last 7 Days", "Last 30 Days", "Older"] :=
  ⟨fun s hs => groupSessionsByDate_exactly_one sessions now s hs,
   groupSessionsByDate_interval sessions now,
   groupSessionsByDate_nonempty sessions now,
   groupSessionsByDate_labels sessions now⟩

/-- Witness for C7 at a concrete session list and reference time. -/
theorem C7_groupByRecency_partition_witness :
    ∃! g : SessionGroup,
      g ∈ groupSessionsByDate [⟨"a", "t", [], 0, 5⟩] 172800000 ∧
        (⟨"a", "t", [], 0, 5⟩ : ChatSession) ∈ g.sessions :=
  (C7_groupByRecency_partition [⟨"a", "t", [], 0, 5⟩] 172800000).1
    ⟨"a", "t", [], 0, 5⟩ (by decide)

/-- C8 (confirmed): after any sequence of upserts on a working store,
`listAll` returns, for each stored id, a session whose messages length and
last message content match the last record upserted under that id, and whose
timestamps are numeric time values equal to the stored ones — the
serialization round trip through the string-typed store does not degrade
them. -/
theorem C8_upsert_listAll_roundtrip (e : Env) (us : List ChatSession)
    (u : ChatSession)
    (hw : e.hasWindow = true) (hf : e.storageFails = false)
    (hlast : (us.filter (fun s => s.id = u.id)).getLast? = some u) :
    ∃ s ∈ getAllSessions (us.foldl saveSession e),
      s.id = u.id ∧ s.messages.length = u.messages.length ∧
      s.messages.getLast? = u.messages.getLast? ∧
      s.createdAt = u.createdAt ∧ s.updatedAt = u.updatedAt := by
  have hfind : (getAllSessions (us.foldl saveSession e)).find?
      (fun s => s.id = u.id) = some u := by
    rw [getAllSessions_foldl_saveSession us e hw hf]
    exact lookup_foldl_upsert_last us (getAllSessions e) u hlast
  exact ⟨u, List.mem_of_find?_eq_some hfind, rfl, rfl, rfl, rfl, rfl⟩

/-- Witness for C8: one upsert of a one-message session into an empty
working store, then `listAll`. -/
theorem C8_upsert_listAll_roundtrip_witness :
    ∃ s ∈ getAllSessions
        ([(⟨"a", "t", [⟨"m1", Role.user, [Part.text "hi"]⟩], 1, 2⟩ :
          ChatSession)].foldl saveSession ⟨true, false, StoredValue.absent, none⟩),
      s.id = (⟨"a", "t", [⟨"m1", Role.user, [Part.text "hi"]⟩], 1, 2⟩ :
          ChatSession).id ∧
      s.messages.length = (⟨"a", "t", [⟨"m1", Role.user, [Part.text "hi"]⟩], 1, 2⟩ :
          ChatSession).messages.length ∧
      s.messages.getLast? = (⟨"a", "t", [⟨"m1", Role.user, [Part.text "hi"]⟩], 1, 2⟩ :
          ChatSession).messages.getLast? ∧
      s.createdAt = (⟨"a", "t", [⟨"m1", Role.user, [Part.text "hi"]⟩], 1, 2⟩ :
          ChatSession).createdAt ∧
      s.updatedAt = (⟨"a", "t", [⟨"m1", Role.user, [Part.text "hi"]⟩], 1, 2⟩ :
          ChatSession).updatedAt :=
  C8_upsert_listAll_roundtrip ⟨true, false, StoredValue.absent, none⟩
    [⟨"a", "t", [⟨"m1", Role.user, [Part.text "hi"]⟩], 1, 2⟩]
    ⟨"a", "t", [⟨"m1", Role.user, [Part.text "hi"]⟩], 1, 2⟩
    rfl rfl (by decide)

/-- C9 (confirmed): when every storage access throws, all six store
operations degrade to a no-op or an empty/none result instead of
propagating; corrupt stored data degrades `listAll` to the empty list; and a
storage failure never prevents a send from completing — `handleSubmit`
appends the user message to the in-memory live list and enters the
`submitted` state regardless of the storage environment. -/
theorem C9_storage_failure_degrades :
    (∀ e : Env, e.storageFails = true →
      getAllSessions e = [] ∧
      (∀ s, saveSession e s = e) ∧
      (∀ sid, deleteSession e sid = e) ∧
      (∀ sid t now, updateSessionTitle e sid t now = e) ∧
      getCurrentSessionId e = none ∧
      (∀ sid, setCurrentSessionId e sid = e)) ∧
    (∀ e : Env, e.sessionsValue = StoredValue.corrupt →
      getAllSessions e = []) ∧
    (∀ (st : HomeState) (fsid fmid : String),
      jsTrim st.input ≠ "" → isLoading st = false →
      (handleSubmit st fsid fmid).streamMessages =
        st.streamMessages ++ [⟨fmid, Role.user, [Part.text (jsTrim st.input)]⟩] ∧
      (handleSubmit st fsid fmid).status = ChatStatus.submitted) := by
  refine ⟨?_, ?_, ?_⟩
  · intro e hfail
    refine ⟨?_, ?_, ?_, ?_, ?_, ?_⟩
    · cases hw : e.hasWindow <;> simp [getAllSessions, hfail, hw]
    · intro s
      cases hw : e.hasWindow <;> simp [saveSession, hfail, hw]
    · intro sid
      cases hw : e.hasWindow <;> simp [deleteSession, hfail, hw]
    · intro sid t now
      cases hw : e.hasWindow <;>
        simp [updateSessionTitle, getAllSessions, hfail, hw, List.find?]
    · cases hw : e.hasWindow <;> simp [getCurrentSessionId, hfail, hw]
    · intro sid
      cases hw : e.hasWindow <;> simp [setCurrentSessionId, hfail, hw]
  · intro e hc
    cases hw : e.hasWindow
    · simp [getAllSessions, hw]
    · cases hff : e.storageFails <;> simp [getAllSessions, hc, hw, hff]
  · intro st fsid fmid hin hload
    have hcond : ¬(jsTrim st.input = "" ∨ isLoading st = true) := by
      intro h
      rcases h with h | h
      · exact hin h
      · rw [hload] at h
        exact Bool.false_ne_true h
    refine ⟨?_, ?_⟩
    · unfold handleSubmit sendMessage
      rw [if_neg hcond]
      by_cases hc : st.currentSessionId.isNone <;> simp [hc]
    · unfold handleSubmit sendMessage
      rw [if_neg hcond]

/-- Witness for C9 at a concrete failing environment and a concrete send. -/
theorem C9_storage_failure_degrades_witness :
    getAllSessions ⟨true, true, StoredValue.absent, none⟩ = [] ∧
    saveSession ⟨true, true, StoredValue.absent, none⟩ ⟨"a", "t", [], 0, 0⟩ =
      ⟨true, true, StoredValue.absent, none⟩ ∧
    (handleSubmit
        { currentSessionId := none,
          activeStreamingSessionId := none,
          streamMessages := [],
          displayMessages := [],
          status := ChatStatus.ready,
          input := "hi",
          sessions := [],
          sidebarOpen := false,
          editingMessageId := none,
          editingText := "",
          env := ⟨true, true, StoredValue.absent, none⟩ } "s1" "m1").streamMessages =
      [] ++ [⟨"m1", Role.user, [Part.text (jsTrim "hi")]⟩] :=
  ⟨(C9_storage_failure_degrades.1 ⟨true, true, StoredValue.absent, none⟩ rfl).1,
   ((C9_storage_failure_degrades.1 ⟨true, true, StoredValue.absent, none⟩ rfl).2.1
     ⟨"a", "t", [], 0, 0⟩),
   (C9_storage_failure_degrades.2.2
      { currentSessionId := none,
        activeStreamingSessionId := none,
        streamMessages := [],
        displayMessages := [],
        status := ChatStatus.ready,
        input := "hi",
        sessions := [],
        sidebarOpen := false,
        editingMessageId := none,
        editingText := "",
        env := ⟨true, true, StoredValue.absent, none⟩ } "s1" "m1"
      (by decide) rfl).1⟩

/-- C10 (confirmed): when the first user message's first text part is a
non-empty string consisting only of whitespace (its trim is empty),
`generateSessionTitle` returns the empty string: the falsy no-text check is
performed on the raw text before trimming, and the truncation branch then
returns the trimmed (empty) text unchanged. -/
theorem C10_whitespace_only_title (msgs : List Message) (u : Message)
    (s : String)
    (hu : msgs.find? (fun m => m.role = Role.user) = some u)
    (hp : u.parts.find? isTextPart = some (Part.text s))
    (hne : s ≠ "") (hws : jsTrim s = "") :
    generateSessionTitle msgs = "" := by
  unfold generateSessionTitle
  simp only [hu, hp, textOfPart]
  rw [if_neg hne, hws]
  rw [if_neg (by decide)]

/-- Witness for C10: a single space as the only text of the first user
message titles to the empty string. -/
theorem C10_whitespace_only_title_witness :
    generateSessionTitle [⟨"1", Role.user, [Part.text " "]⟩] = "" :=
  C10_whitespace_only_title [⟨"1", Role.user, [Part.text " "]⟩]
    ⟨"1", Role.user, [Part.text " "]⟩ " " (by decide) (by decide)
    (by decide) (by decide)

end Socratex
